import Mathlib

/-!
Verification of `cartesian_controller_base.hpp` (PPML-Group/cartesian_controllers).

Shallow embedding of the `CartesianControllerBase<HardwareInterface>` template:
the lifecycle operations `init`, `starting`, `pause`, `resume`, the per-tick
pipeline `computeJointControlCmds` / `writeJointControlCmds`, and the frame
transform utilities `displayInBaseLink` (vector and tensor overloads) and
`displayInTipLink`.

Numbers are modelled with `Rat` (exact arithmetic standing in for `double`).
The collaborating solvers (spatial PID controller, forward dynamics solver,
forward kinematics solver) are implemented outside this header; the embedding
is parameterised over their update functions, so theorems about the
orchestrator hold for every solver implementation.  Where a claim needs the
behaviour of a missing collaborator, a concrete model is given whose doc
comment starts with `Modelled from the spec:`.
-/

namespace CartesianControllers

/-- A 3-vector of rationals (one linear or angular part of a KDL wrench). -/
@[ext]
structure V3 where
  x : Rat
  y : Rat
  z : Rat
deriving DecidableEq, Repr

/-- A 3x3 matrix of rationals, row major like `KDL::Rotation::data`. -/
@[ext]
structure M3 where
  xx : Rat
  xy : Rat
  xz : Rat
  yx : Rat
  yy : Rat
  yz : Rat
  zx : Rat
  zy : Rat
  zz : Rat
deriving DecidableEq, Repr

/-- Matrix-vector product, as in `KDL::Rotation operator*(Vector)`. -/
def M3.mulVec (m : M3) (v : V3) : V3 :=
  ⟨m.xx * v.x + m.xy * v.y + m.xz * v.z,
   m.yx * v.x + m.yy * v.y + m.yz * v.z,
   m.zx * v.x + m.zy * v.y + m.zz * v.z⟩

/-- Matrix product. -/
def M3.mul (a b : M3) : M3 :=
  ⟨a.xx * b.xx + a.xy * b.yx + a.xz * b.zx,
   a.xx * b.xy + a.xy * b.yy + a.xz * b.zy,
   a.xx * b.xz + a.xy * b.yz + a.xz * b.zz,
   a.yx * b.xx + a.yy * b.yx + a.yz * b.zx,
   a.yx * b.xy + a.yy * b.yy + a.yz * b.zy,
   a.yx * b.xz + a.yy * b.yz + a.yz * b.zz,
   a.zx * b.xx + a.zy * b.yx + a.zz * b.zx,
   a.zx * b.xy + a.zy * b.yy + a.zz * b.zy,
   a.zx * b.xz + a.zy * b.yz + a.zz * b.zz⟩

/-- Transpose; `KDL::Rotation::Inverse` of a rotation matrix is its transpose. -/
def M3.transpose (m : M3) : M3 :=
  ⟨m.xx, m.yx, m.zx, m.xy, m.yy, m.zy, m.xz, m.yz, m.zz⟩

/-- Identity matrix. -/
def M3.one : M3 := ⟨1, 0, 0, 0, 1, 0, 0, 0, 1⟩

/-- Zero matrix; result of `ctrl::Matrix6D::Zero()` on each 3x3 block. -/
def M3.zero : M3 := ⟨0, 0, 0, 0, 0, 0, 0, 0, 0⟩

/-- A 6D spatial vector (`ctrl::Vector6D` / `KDL::Wrench`): indices 0..2 are the
linear part, 3..5 the angular part. -/
@[ext]
structure Vector6D where
  lin : V3
  ang : V3
deriving DecidableEq, Repr

/-- The zero 6D vector. -/
def Vector6D.zero : Vector6D := ⟨⟨0, 0, 0⟩, ⟨0, 0, 0⟩⟩

/-- `KDL::Rotation * KDL::Wrench`: rotates the linear and the angular 3-vector. -/
def rotateV6 (r : M3) (v : Vector6D) : Vector6D :=
  ⟨r.mulVec v.lin, r.mulVec v.ang⟩

/-- A 6x6 spatial tensor (`ctrl::Matrix6D`) decomposed into its four 3x3
blocks: top-left, top-right, bottom-left, bottom-right. -/
@[ext]
structure Matrix6D where
  tl : M3
  tr : M3
  bl : M3
  br : M3
deriving DecidableEq, Repr

/-- A hardware joint handle: the measured position and velocity it reads.
Command writes are modelled as an explicit output list, not a field. -/
structure JointHandle where
  position : Rat
  velocity : Rat
deriving DecidableEq, Repr

/-- The simulated joint motion returned by the forward dynamics solver
(member `m_simulated_joint_motion`, type `trajectory_msgs::JointTrajectoryPoint`). -/
structure JointMotion where
  positions : List Rat
  velocities : List Rat
deriving DecidableEq, Repr

/-- An empty joint motion (default-constructed message). -/
def JointMotion.empty : JointMotion := ⟨[], []⟩

/-- The state of a `CartesianControllerBase` instance, parameterised over the
internal state types of the spatial PID controller (`SC`) and the forward
dynamics solver (`FD`), whose implementations live outside this header. -/
@[ext]
structure State (SC FD : Type) where
  already_initialized : Bool
  paused : Bool
  robot_base_link : String
  end_effector_link : String
  joint_names : List String
  joint_handles : List JointHandle
  cartesian_input : Vector6D
  simulated_joint_motion : JointMotion
  spatial_controller : SC
  forward_dynamics : FD

/-- The collaborating solver operations the orchestrator calls, passed as
parameters because their implementations are outside this header:
`m_spatial_controller(error, period)`,
`m_forward_dynamics_solver.{getJointControlCmds, setStartState, getPositions}`,
and `m_forward_kinematics_solver->JntToCart` (returning `none` when the frame
name cannot be resolved in the chain). -/
structure Solvers (SC FD : Type) where
  spatialUpdate : SC → Vector6D → Rat → Vector6D × SC
  fdGetCmds : FD → Rat → Vector6D → JointMotion × FD
  fdSetStart : FD → List JointHandle → FD
  fdGetPositions : FD → List Rat
  fkJntToCart : List Rat → String → Option M3

/-- Joint position limits read from the URDF model
(`robot_model.getJoint(name)->limits->{upper, lower}`). -/
structure JointLimits where
  lower : Rat
  upper : Rat
deriving DecidableEq, Repr

/-- A kinematic chain as produced by `robot_tree.getChain(base, tip)`; the
orchestrator only forwards it to the solvers, so the segment names suffice. -/
structure Chain where
  segments : List String
deriving DecidableEq, Repr

/-- The external inputs `init` consults: parameter-server lookups (`none` means
`nh.getParam` returned false), URDF/KDL parsing outcomes, model joint lookup,
and hardware handle resolution (`hw->getHandle`; `none` means the handle cannot
be resolved, which in the hardware abstraction raises an exception). -/
structure InitEnv where
  robot_description : Option String
  robot_base_link_param : Option String
  end_effector_link_param : Option String
  urdfInitString : String → Bool
  treeFromUrdfModel : Bool
  getChain : String → String → Option Chain
  joints_param : Option (List String)
  getJoint : String → Option JointLimits
  getHandle : String → Option JointHandle

/-- The solver set-up calls made at the end of `init`:
`m_forward_dynamics_solver.init(chain, upper, lower)` and
`m_spatial_controller.init(nh)`. -/
structure InitSolvers (SC FD : Type) where
  fdInit : FD → Chain → List Rat → List Rat → FD
  scInit : SC

/-- Outcome of `init`: returned `true`, returned `false`, or escaped by a
thrown `std::runtime_error` (or a hardware-handle resolution exception); each
outcome carries the member state left behind. -/
inductive InitOutcome (SC FD : Type) where
  | ok : State SC FD → InitOutcome SC FD
  | retFalse : State SC FD → InitOutcome SC FD
  | thrown : String → State SC FD → InitOutcome SC FD

/-- The member state an `init` outcome leaves behind. -/
def InitOutcome.resultState {SC FD : Type} : InitOutcome SC FD → State SC FD
  | .ok s => s
  | .retFalse s => s
  | .thrown _ s => s

/-- Whether `init` returned `true`. -/
def InitOutcome.isOk {SC FD : Type} : InitOutcome SC FD → Bool
  | .ok _ => true
  | _ => false

/-- Whether `init` escaped by exception. -/
def InitOutcome.isThrown {SC FD : Type} : InitOutcome SC FD → Bool
  | .thrown _ _ => true
  | _ => false

/-- The joint-limit parsing loop of `init`: looks every joint name up in the
URDF model, collecting the upper and lower position limits; `none` when some
joint does not appear in the model (the loop throws there). -/
def parseLimits (env : InitEnv) : List String → Option (List Rat × List Rat)
  | [] => some ([], [])
  | n :: rest =>
    match env.getJoint n with
    | none => none
    | some lim =>
      match parseLimits env rest with
      | none => none
      | some (upper, lower) => some (lim.upper :: upper, lim.lower :: lower)

/-- The handle-acquisition loop of `init`: `m_joint_handles.push_back(hw->getHandle(name))`
for each joint name.  On a resolution failure the exception escapes with the
handles appended so far (`Except.error` carries that partial list). -/
def pushHandles (env : InitEnv) :
    List String → List JointHandle → Except (List JointHandle) (List JointHandle)
  | [], acc => .ok acc
  | n :: rest, acc =>
    match env.getHandle n with
    | none => .error acc
    | some h => pushHandles env rest (acc ++ [h])

/-- `init(hw, nh)`: returns `true` at once when `m_already_initialized`;
otherwise reads `/robot_description`, `robot_base_link`, `end_effector_link`
(returning `false` when missing, the link parameters being written into the
members on success), parses the URDF (returning `false` on failure), builds the
KDL tree and chain and reads the `joints` parameter and the joint limits
(throwing on failure), acquires the hardware handles (an unresolvable handle
escapes by exception), initialises the solvers, and only then sets
`m_already_initialized = true` and `m_paused = false`. -/
def init {SC FD : Type} (sv : InitSolvers SC FD) (env : InitEnv)
    (s : State SC FD) : InitOutcome SC FD :=
  if s.already_initialized then .ok s else
  match env.robot_description with
  | none => .retFalse s
  | some robot_description =>
  match env.robot_base_link_param with
  | none => .retFalse s
  | some base =>
  let s1 := { s with robot_base_link := base }
  match env.end_effector_link_param with
  | none => .retFalse s1
  | some tip =>
  let s2 := { s1 with end_effector_link := tip }
  if env.urdfInitString robot_description then
    if env.treeFromUrdfModel then
      match env.getChain base tip with
      | none => .thrown "Failed to parse robot chain from urdf model" s2
      | some chain =>
      match env.joints_param with
      | none => .thrown "Failed to load joints from parameter server" s2
      | some names =>
      let s3 := { s2 with joint_names := names }
      match parseLimits env names with
      | none => .thrown "Joint does not appear in /robot_description" s3
      | some limits =>
      match pushHandles env names s3.joint_handles with
      | .error acc =>
          .thrown "Could not resolve a hardware handle"
            { s3 with joint_handles := acc }
      | .ok handles =>
          .ok { s3 with
                joint_handles := handles
                forward_dynamics := sv.fdInit s3.forward_dynamics chain limits.1 limits.2
                spatial_controller := sv.scInit
                already_initialized := true
                paused := false }
    else .thrown "Failed to parse KDL tree from urdf model" s2
  else .retFalse s2

/-- `starting(time)`: copies the joint state into the internal simulation by
calling `m_forward_dynamics_solver.setStartState(m_joint_handles)`.  It touches
no other member (in particular it does not write `m_paused`). -/
def starting {SC FD : Type} (sv : Solvers SC FD) (s : State SC FD) : State SC FD :=
  { s with forward_dynamics := sv.fdSetStart s.forward_dynamics s.joint_handles }

/-- `pause(time)`: sets `m_paused = true`. -/
def pause {SC FD : Type} (s : State SC FD) : State SC FD :=
  { s with paused := true }

/-- `resume(time)`: sets `m_paused = false` and returns `true`. -/
def resume {SC FD : Type} (s : State SC FD) : Bool × State SC FD :=
  (true, { s with paused := false })

/-- `computeJointControlCmds(error, period)`: early-returns when paused;
otherwise stores the spatial controller output in `m_cartesian_input` and the
forward dynamics result in `m_simulated_joint_motion`. -/
def computeJointControlCmds {SC FD : Type} (sv : Solvers SC FD) (s : State SC FD)
    (error : Vector6D) (period : Rat) : State SC FD :=
  if s.paused then s else
    let pid := sv.spatialUpdate s.spatial_controller error period
    let s1 := { s with cartesian_input := pid.1, spatial_controller := pid.2 }
    let fd := sv.fdGetCmds s1.forward_dynamics period s1.cartesian_input
    { s1 with simulated_joint_motion := fd.1, forward_dynamics := fd.2 }

/-- The compile-time hardware interface choice: the source provides one
explicit specialisation of `writeJointControlCmds` for
`hardware_interface::PositionJointInterface` and one for
`hardware_interface::VelocityJointInterface`. -/
inductive HardwareInterface where
  | position : HardwareInterface
  | velocity : HardwareInterface
deriving DecidableEq, Repr

/-- `writeJointControlCmds()`: when paused, writes nothing; otherwise the
position specialisation calls `setCommand(m_simulated_joint_motion.positions[i])`
for each joint handle `i`, and the velocity specialisation calls
`setCommand(m_simulated_joint_motion.velocities[i])`.  The list of values
written, in handle order, is returned as the observable hardware effect. -/
def writeJointControlCmds {SC FD : Type} (iface : HardwareInterface)
    (s : State SC FD) : List Rat :=
  if s.paused then [] else
    match iface with
    | .position =>
        (List.range s.joint_handles.length).map
          (fun i => s.simulated_joint_motion.positions.getD i 0)
    | .velocity =>
        (List.range s.joint_handles.length).map
          (fun i => s.simulated_joint_motion.velocities.getD i 0)

/-- One control tick as seen by the host: `computeJointControlCmds` followed by
`writeJointControlCmds`; returns the new state and the written commands. -/
def tick {SC FD : Type} (iface : HardwareInterface) (sv : Solvers SC FD)
    (s : State SC FD) (error : Vector6D) (period : Rat) :
    State SC FD × List Rat :=
  let s1 := computeJointControlCmds sv s error period
  (s1, writeJointControlCmds iface s1)

/-- `displayInBaseLink(Vector6D, from)`: queries the forward kinematics solver
for the frame `from` at the current simulated joint positions and rotates both
halves of the wrench by that frame's rotation. -/
def displayInBaseLink {SC FD : Type} (sv : Solvers SC FD) (s : State SC FD)
    (vector : Vector6D) (fromFrame : String) : Option Vector6D :=
  (sv.fkJntToCart (sv.fdGetPositions s.forward_dynamics) fromFrame).map
    (fun r => rotateV6 r vector)

/-- `displayInTipLink(Vector6D, to)`: as `displayInBaseLink` but rotates by the
inverse (transpose) of the rotation of frame `to`. -/
def displayInTipLink {SC FD : Type} (sv : Solvers SC FD) (s : State SC FD)
    (vector : Vector6D) (toFrame : String) : Option Vector6D :=
  (sv.fkJntToCart (sv.fdGetPositions s.forward_dynamics) toFrame).map
    (fun r => rotateV6 r.transpose vector)

/-- `displayInBaseLink(Matrix6D, from)` (tensor overload): starts from
`Matrix6D::Zero()` and overwrites only the two diagonal 3x3 blocks with
`R * block * R^T`; the off-diagonal blocks of the result stay zero. -/
def displayInBaseLinkTensor {SC FD : Type} (sv : Solvers SC FD) (s : State SC FD)
    (tensor : Matrix6D) (fromFrame : String) : Option Matrix6D :=
  (sv.fkJntToCart (sv.fdGetPositions s.forward_dynamics) fromFrame).map
    (fun r =>
      { tl := r.mul (tensor.tl.mul r.transpose)
        tr := M3.zero
        bl := M3.zero
        br := r.mul (tensor.br.mul r.transpose) })

/-- Modelled from the spec: the ForwardDynamicsSolver implementation is not
part of this header; per the spec it maintains simulated joint positions and
velocities as its internal state. -/
structure FDState where
  positions : List Rat
  velocities : List Rat
deriving DecidableEq, Repr

/-- Modelled from the spec: `setStartState(measuredJoints)` resets the
simulated position and velocity to the measured hardware state. -/
def FDState.setStartState (_ : FDState) (handles : List JointHandle) : FDState :=
  ⟨handles.map (fun h => h.position), handles.map (fun h => h.velocity)⟩

/-- Modelled from the spec: `getPositions()` is the read accessor for the
simulated joint positions. -/
def FDState.getPositions (fd : FDState) : List Rat :=
  fd.positions

/- Sample concrete instances used by witnesses and counterexamples. -/

/-- Rotation by 90 degrees about the z axis (an exact orthogonal matrix). -/
def rotZ90 : M3 := ⟨0, -1, 0, 1, 0, 0, 0, 0, 1⟩

/-- Two joint handles with distinct measured positions and velocities. -/
def sampleHandles : List JointHandle := [⟨1/2, 0⟩, ⟨1, 3/4⟩]

/-- A sample 6D vector with six distinct components. -/
def sampleV6 : Vector6D := ⟨⟨1, 2, 3⟩, ⟨4, 5, 6⟩⟩

/-- A sample spatial tensor whose off-diagonal blocks are nonzero. -/
def sampleTensor : Matrix6D :=
  ⟨⟨1, 2, 3, 4, 5, 6, 7, 8, 9⟩, ⟨1, 1, 1, 1, 1, 1, 1, 1, 1⟩,
   ⟨2, 2, 2, 2, 2, 2, 2, 2, 2⟩, ⟨9, 8, 7, 6, 5, 4, 3, 2, 1⟩⟩

/-- A concrete solver set over `Unit` PID state and the spec-modelled
forward dynamics state; the kinematics solver resolves only `"tool0"`. -/
def sampleSolvers : Solvers Unit FDState where
  spatialUpdate := fun _ e t => (⟨⟨t * e.lin.x, e.lin.y, e.lin.z⟩, e.ang⟩, ())
  fdGetCmds := fun fd t v => (⟨fd.positions.map (fun p => p + t * v.lin.x), fd.velocities⟩, fd)
  fdSetStart := FDState.setStartState
  fdGetPositions := FDState.getPositions
  fkJntToCart := fun _ f => if f = "tool0" then some rotZ90 else none

/-- A running, initialised sample controller state. -/
def sampleState : State Unit FDState where
  already_initialized := true
  paused := false
  robot_base_link := "base_link"
  end_effector_link := "tool0"
  joint_names := ["joint1", "joint2"]
  joint_handles := sampleHandles
  cartesian_input := Vector6D.zero
  simulated_joint_motion := ⟨[1, 2], [3, 4]⟩
  spatial_controller := ()
  forward_dynamics := ⟨[1, 2], [3, 4]⟩

/-- The sample state with `m_paused = true`. -/
def pausedSampleState : State Unit FDState := { sampleState with paused := true }

/-- The sample state before any initialisation. -/
def freshState : State Unit FDState := { sampleState with already_initialized := false }

/-- Concrete solver set-up calls for `init`. -/
def sampleInitSolvers : InitSolvers Unit FDState where
  fdInit := fun _ _ upper lower => ⟨lower, upper⟩
  scInit := ()

/-- An environment in which every parameter resolves but
`robot_tree.getChain` fails. -/
def chainFailEnv : InitEnv where
  robot_description := some "urdf model text"
  robot_base_link_param := some "base_link"
  end_effector_link_param := some "tool0"
  urdfInitString := fun _ => true
  treeFromUrdfModel := true
  getChain := fun _ _ => none
  joints_param := some ["joint1", "joint2"]
  getJoint := fun _ => some ⟨-1, 1⟩
  getHandle := fun _ => some ⟨0, 0⟩

/- Rotation algebra used for the frame-transform round trip. -/

theorem M3.mul_mulVec (a b : M3) (v : V3) :
    (a.mul b).mulVec v = a.mulVec (b.mulVec v) := by
  simp only [M3.mul, M3.mulVec]
  refine V3.ext ?_ ?_ ?_ <;> ring

theorem M3.one_mulVec (v : V3) : M3.one.mulVec v = v := by
  simp only [M3.one, M3.mulVec]
  refine V3.ext ?_ ?_ ?_ <;> ring

/- Claim theorems. -/

/-- C1 (counterexample): in a configuration where every parameter resolves but
the kinematic chain cannot be extracted from the KDL tree, `init` escapes by a
thrown exception instead of returning failure to the caller, refuting the
claim that every configuration error is reported by a `false` return value. -/
theorem init_unresolvable_chain_throws_cex :
    (init sampleInitSolvers chainFailEnv freshState).isThrown = true := rfl

/-- C1 (amended): whenever `init` does not succeed — whether it returns
`false` or escapes by exception — a controller that was uninitialised stays
uninitialised: `m_already_initialized` remains `false`, so a later `init` call
performs full validation again. -/
theorem init_failure_keeps_uninitialized {SC FD : Type} (sv : InitSolvers SC FD)
    (env : InitEnv) (s : State SC FD) (h : s.already_initialized = false)
    (hfail : (init sv env s).isOk = false) :
    (init sv env s).resultState.already_initialized = false := by
  revert hfail
  unfold init
  simp only [h, Bool.false_eq_true, if_false]
  repeat' split
  all_goals simp_all [InitOutcome.isOk, InitOutcome.resultState]

/-- C1 (witness): the amended theorem applied to the unresolvable-chain
environment. -/
theorem init_failure_keeps_uninitialized_witness :
    freshState.already_initialized = false ∧
    (init sampleInitSolvers chainFailEnv freshState).isOk = false ∧
    (init sampleInitSolvers chainFailEnv freshState).resultState.already_initialized = false :=
  ⟨rfl, rfl, init_failure_keeps_uninitialized sampleInitSolvers chainFailEnv freshState rfl rfl⟩

/-- C2 (counterexample): `starting` on a paused controller leaves
`m_paused = true`; it does not clear the paused flag as the claim states. -/
theorem starting_keeps_paused_cex :
    ¬ (starting sampleSolvers pausedSampleState).paused = false := by
  decide

/-- C2 (amended): `starting` re-anchors the dynamics simulation by calling
`setStartState` on the measured joint handles — with the spec's forward
dynamics model, `getPositions` afterwards equals the measured hardware
positions exactly — and changes no other member; in particular the paused
flag is left as it was (it is cleared by `init`, not by `starting`). -/
theorem starting_reanchors_only {SC : Type} (sv : Solvers SC FDState)
    (s : State SC FDState)
    (hset : sv.fdSetStart = FDState.setStartState)
    (hpos : sv.fdGetPositions = FDState.getPositions) :
    (starting sv s).forward_dynamics =
      FDState.setStartState s.forward_dynamics s.joint_handles ∧
    sv.fdGetPositions (starting sv s).forward_dynamics =
      s.joint_handles.map (fun h => h.position) ∧
    (starting sv s).paused = s.paused ∧
    (starting sv s).already_initialized = s.already_initialized ∧
    (starting sv s).robot_base_link = s.robot_base_link ∧
    (starting sv s).end_effector_link = s.end_effector_link ∧
    (starting sv s).joint_names = s.joint_names ∧
    (starting sv s).joint_handles = s.joint_handles ∧
    (starting sv s).cartesian_input = s.cartesian_input ∧
    (starting sv s).simulated_joint_motion = s.simulated_joint_motion ∧
    (starting sv s).spatial_controller = s.spatial_controller := by
  simp [starting, hset, hpos, FDState.setStartState, FDState.getPositions]

/-- C2 (witness): the amended theorem at the sample controller state. -/
theorem starting_reanchors_only_witness :
    sampleSolvers.fdSetStart = FDState.setStartState ∧
    sampleSolvers.fdGetPositions = FDState.getPositions ∧
    ((starting sampleSolvers sampleState).forward_dynamics =
       FDState.setStartState sampleState.forward_dynamics sampleState.joint_handles ∧
     sampleSolvers.fdGetPositions (starting sampleSolvers sampleState).forward_dynamics =
       sampleState.joint_handles.map (fun h => h.position) ∧
     (starting sampleSolvers sampleState).paused = sampleState.paused ∧
     (starting sampleSolvers sampleState).already_initialized = sampleState.already_initialized ∧
     (starting sampleSolvers sampleState).robot_base_link = sampleState.robot_base_link ∧
     (starting sampleSolvers sampleState).end_effector_link = sampleState.end_effector_link ∧
     (starting sampleSolvers sampleState).joint_names = sampleState.joint_names ∧
     (starting sampleSolvers sampleState).joint_handles = sampleState.joint_handles ∧
     (starting sampleSolvers sampleState).cartesian_input = sampleState.cartesian_input ∧
     (starting sampleSolvers sampleState).simulated_joint_motion = sampleState.simulated_joint_motion ∧
     (starting sampleSolvers sampleState).spatial_controller = sampleState.spatial_controller) :=
  ⟨rfl, rfl, starting_reanchors_only sampleSolvers sampleState rfl rfl⟩

/-- C3: on a non-paused tick, `computeJointControlCmds` stores exactly the
spatial controller's output of the raw error in `m_cartesian_input` and feeds
that output — not the raw error — into the forward dynamics solver, whose
result becomes `m_simulated_joint_motion`. -/
theorem compute_cmds_composition {SC FD : Type} (sv : Solvers SC FD)
    (s : State SC FD) (error : Vector6D) (period : Rat)
    (h : s.paused = false) :
    (computeJointControlCmds sv s error period).cartesian_input =
      (sv.spatialUpdate s.spatial_controller error period).1 ∧
    (computeJointControlCmds sv s error period).simulated_joint_motion =
      (sv.fdGetCmds s.forward_dynamics period
        (sv.spatialUpdate s.spatial_controller error period).1).1 := by
  simp [computeJointControlCmds, h]

/-- C3 (witness): the composition at the sample state with a concrete error
and period. -/
theorem compute_cmds_composition_witness :
    sampleState.paused = false ∧
    ((computeJointControlCmds sampleSolvers sampleState sampleV6 (1/100)).cartesian_input =
       (sampleSolvers.spatialUpdate sampleState.spatial_controller sampleV6 (1/100)).1 ∧
     (computeJointControlCmds sampleSolvers sampleState sampleV6 (1/100)).simulated_joint_motion =
       (sampleSolvers.fdGetCmds sampleState.forward_dynamics (1/100)
         (sampleSolvers.spatialUpdate sampleState.spatial_controller sampleV6 (1/100)).1).1) :=
  ⟨rfl, compute_cmds_composition sampleSolvers sampleState sampleV6 (1/100) rfl⟩

/-- C4: a tick while paused writes nothing to the hardware and returns the
state completely unchanged: both `computeJointControlCmds` and
`writeJointControlCmds` return early on `m_paused`. -/
theorem paused_tick_noop {SC FD : Type} (iface : HardwareInterface)
    (sv : Solvers SC FD) (s : State SC FD) (error : Vector6D) (period : Rat)
    (h : s.paused = true) :
    tick iface sv s error period = (s, []) := by
  simp [tick, computeJointControlCmds, writeJointControlCmds, h]

/-- C4 (witness): a paused tick at the paused sample state. -/
theorem paused_tick_noop_witness :
    pausedSampleState.paused = true ∧
    tick .position sampleSolvers pausedSampleState sampleV6 (1/100) = (pausedSampleState, []) :=
  ⟨rfl, paused_tick_noop .position sampleSolvers pausedSampleState sampleV6 (1/100) rfl⟩

/-- C5: a second `init` call on an already-initialised controller returns
`true` immediately and leaves the entire state — every member — exactly as it
was. -/
theorem init_idempotent {SC FD : Type} (sv : InitSolvers SC FD) (env : InitEnv)
    (s : State SC FD) (h : s.already_initialized = true) :
    init sv env s = .ok s := by
  simp [init, h]

/-- C5 (witness): re-initialising the initialised sample state. -/
theorem init_idempotent_witness :
    sampleState.already_initialized = true ∧
    init sampleInitSolvers chainFailEnv sampleState = .ok sampleState :=
  ⟨rfl, init_idempotent sampleInitSolvers chainFailEnv sampleState rfl⟩

/-- C6: for a frame that the kinematics solver resolves to an orthogonal
rotation, `displayInTipLink` after `displayInBaseLink` at the same frame and
the same state reconstructs the original 6-vector exactly: the tip-link
transform applies the inverse (transpose) of the rotation applied by the
base-link transform at the same joint positions. -/
theorem display_roundtrip {SC FD : Type} (sv : Solvers SC FD) (s : State SC FD)
    (v : Vector6D) (frame : String) (r : M3)
    (hres : sv.fkJntToCart (sv.fdGetPositions s.forward_dynamics) frame = some r)
    (horth : r.transpose.mul r = M3.one) :
    (displayInBaseLink sv s v frame).bind
      (fun w => displayInTipLink sv s w frame) = some v := by
  simp only [displayInBaseLink, displayInTipLink, hres, Option.map_some',
    Option.some_bind]
  refine congrArg some (Vector6D.ext ?_ ?_) <;>
    simp only [rotateV6] <;>
    rw [← M3.mul_mulVec, horth, M3.one_mulVec]

/-- C6 (witness): the round trip through the frame `tool0`, resolved to the
exact orthogonal rotation `rotZ90`, at a concrete 6-vector. -/
theorem display_roundtrip_witness :
    sampleSolvers.fkJntToCart
      (sampleSolvers.fdGetPositions sampleState.forward_dynamics) "tool0" = some rotZ90 ∧
    rotZ90.transpose.mul rotZ90 = M3.one ∧
    (displayInBaseLink sampleSolvers sampleState sampleV6 "tool0").bind
      (fun w => displayInTipLink sampleSolvers sampleState w "tool0") = some sampleV6 :=
  ⟨rfl, by norm_num [rotZ90, M3.transpose, M3.mul, M3.one, M3.mk.injEq],
    display_roundtrip sampleSolvers sampleState sampleV6 "tool0" rotZ90 rfl
      (by norm_num [rotZ90, M3.transpose, M3.mul, M3.one, M3.mk.injEq])⟩

/-- C7: the tensor overload of `displayInBaseLink` conjugates the top-left and
bottom-right 3x3 blocks by the resolved rotation and zeroes both off-diagonal
blocks, whatever the input's off-diagonal blocks were. -/
theorem display_tensor_blocks {SC FD : Type} (sv : Solvers SC FD)
    (s : State SC FD) (tensor : Matrix6D) (frame : String) (r : M3)
    (hres : sv.fkJntToCart (sv.fdGetPositions s.forward_dynamics) frame = some r) :
    displayInBaseLinkTensor sv s tensor frame =
      some ⟨r.mul (tensor.tl.mul r.transpose), M3.zero, M3.zero,
            r.mul (tensor.br.mul r.transpose)⟩ := by
  simp [displayInBaseLinkTensor, hres]

/-- C7 (witness): the tensor transform at a sample tensor whose off-diagonal
blocks are nonzero, through the frame `tool0`. -/
theorem display_tensor_blocks_witness :
    sampleSolvers.fkJntToCart
      (sampleSolvers.fdGetPositions sampleState.forward_dynamics) "tool0" = some rotZ90 ∧
    displayInBaseLinkTensor sampleSolvers sampleState sampleTensor "tool0" =
      some ⟨rotZ90.mul (sampleTensor.tl.mul rotZ90.transpose), M3.zero, M3.zero,
            rotZ90.mul (sampleTensor.br.mul rotZ90.transpose)⟩ :=
  ⟨rfl, display_tensor_blocks sampleSolvers sampleState sampleTensor "tool0" rotZ90 rfl⟩

/-- C8: `resume` sets `m_paused = false` and changes nothing else: every other
member, including the forward dynamics solver state (no `setStartState`
re-anchoring), is exactly as before. -/
theorem resume_clears_paused_only {SC FD : Type} (s : State SC FD) :
    (resume s).2.paused = false ∧
    (resume s).2.already_initialized = s.already_initialized ∧
    (resume s).2.robot_base_link = s.robot_base_link ∧
    (resume s).2.end_effector_link = s.end_effector_link ∧
    (resume s).2.joint_names = s.joint_names ∧
    (resume s).2.joint_handles = s.joint_handles ∧
    (resume s).2.cartesian_input = s.cartesian_input ∧
    (resume s).2.simulated_joint_motion = s.simulated_joint_motion ∧
    (resume s).2.spatial_controller = s.spatial_controller ∧
    (resume s).2.forward_dynamics = s.forward_dynamics := by
  simp [resume]

/-- C9: on a non-paused write, the position-interface specialisation writes
exactly `m_simulated_joint_motion.positions[i]` to handle `i` for every handle
index, and the velocity-interface specialisation writes exactly
`m_simulated_joint_motion.velocities[i]`; each instance's written command list
is fully determined by its compile-time interface. -/
theorem write_cmds_matches_iface {SC FD : Type} (s : State SC FD)
    (h : s.paused = false) :
    writeJointControlCmds .position s =
      (List.range s.joint_handles.length).map
        (fun i => s.simulated_joint_motion.positions.getD i 0) ∧
    writeJointControlCmds .velocity s =
      (List.range s.joint_handles.length).map
        (fun i => s.simulated_joint_motion.velocities.getD i 0) := by
  simp [writeJointControlCmds, h]

/-- C9 (witness): both specialisations at the sample state. -/
theorem write_cmds_matches_iface_witness :
    sampleState.paused = false ∧
    (writeJointControlCmds .position sampleState =
      (List.range sampleState.joint_handles.length).map
        (fun i => sampleState.simulated_joint_motion.positions.getD i 0) ∧
     writeJointControlCmds .velocity sampleState =
      (List.range sampleState.joint_handles.length).map
        (fun i => sampleState.simulated_joint_motion.velocities.getD i 0)) :=
  ⟨rfl, write_cmds_matches_iface sampleState rfl⟩

/-- C10: `resume` returns `true` in every controller state; its boolean result
never signals failure. -/
theorem resume_returns_true {SC FD : Type} (s : State SC FD) :
    (resume s).1 = true := rfl

end CartesianControllers
